import Mathlib

/-!
Verification of the publish-retry-and-verify protocol of the repository's
single script (src/meta.py, class UnifiedSocialMediaUploader).

The embedding is shallow: every HTTP exchange is an explicit input to the
embedded function (the response of the k-th call is the value of an
environment function at k), wall-clock readings are an explicit input
(`elapsed k` is the value of `time.time() - start_time` observed at the top
of iteration k), and the observable side effects of a loop — publish POSTs,
`time.sleep` calls, verification checks, the storage delete — are returned
as an explicit event trace.  Python's bounded `for attempt in range(N)`
loops become structurally recursive functions on a fuel argument that the
wrapper instantiates with the source's attempt cap, keeping the Python loop
index `attempt` as a separate argument so that the source's tests such as
`attempt == N - 1` translate verbatim.  Machine floats never matter here
(inputs are compared against small decimal constants), so times, durations
and dimensions are embedded as rationals.
-/

namespace InstaThreads

/-! Configuration constants of UnifiedSocialMediaUploader (src/meta.py lines 18-34). -/

def INSTAGRAM_REEL_STATUS_RETRIES : Nat := 10
def INSTAGRAM_REEL_STATUS_WAIT_TIME : ℚ := 15
def VERIFY_DELAY_INSTAGRAM : ℚ := 8
def VERIFY_DELAY_FACEBOOK : ℚ := 4
def VERIFY_DELAY_THREADS : ℚ := 3
def VERIFY_ATTEMPTS : Nat := 2
def VERIFY_INTERVAL : ℚ := 5
def USE_EXPONENTIAL_BACKOFF : Bool := false
def INSTAGRAM_PUBLISH_ATTEMPTS : Nat := 3
def FACEBOOK_PUBLISH_ATTEMPTS : Nat := 3
def THREADS_PUBLISH_ATTEMPTS : Nat := 5
def PUBLISH_RETRY_INTERVAL : ℚ := 5
def PUBLISH_MAX_WAIT_TIME : ℚ := 30

/-- Local `max_retries = 60` of the Threads status polling loop
(src/meta.py line 1002). -/
def THREADS_POLL_MAX_RETRIES : Nat := 60

/-- classify_error (src/meta.py lines 1084-1101): maps an HTTP status code to
the retry class consulted by every retry loop. -/
def classify_error (status_code : Int) : String :=
  if status_code = 400 ∨ status_code = 403 ∨ status_code = 404 then "permanent"
  else if status_code = 429 then "rate_limit"
  else if 500 ≤ status_code ∧ status_code < 600 then "transient"
  else "unknown"

/-- check_facebook_reel_requirements (src/meta.py lines 591-630).  Width,
height and duration are rationals, `none` embedding Python's `None`.  The
result is `none` exactly when the Python code would raise (the division
`width / height` with `height == 0`), otherwise `some` of the returned
boolean.  The source's local names are kept, except that `aspect` stands for
the source's aspect-ratio variable. -/
def check_facebook_reel_requirements (width height duration : Option ℚ) :
    Option Bool :=
  match width, height, duration with
  | some w, some h, some d =>
    if h = 0 then none
    else
      let aspect := w / h
      let is_portrait : Bool := decide (h > w)
      let is_valid_aspect : Bool := decide (|aspect - 0.5625| < 0.01)
      let meets_minimum_size : Bool := decide (h ≥ 960 ∧ w ≥ 540)
      let meets_maximum_size : Bool := decide (h ≤ 1920 ∧ w ≤ 1080)
      let meets_duration : Bool := decide (3 ≤ d ∧ d ≤ 90)
      some (is_portrait && is_valid_aspect && meets_minimum_size &&
            meets_maximum_size && meets_duration)
  | _, _, _ => some false

/-- Claim C3: for every integer HTTP status code, classify_error returns
"permanent" exactly on 400, 403 and 404; "rate_limit" exactly on 429;
"transient" exactly on 500-599; and "unknown" on every other code. -/
theorem classify_error_spec (c : Int) :
    (classify_error c = "permanent" ↔ (c = 400 ∨ c = 403 ∨ c = 404)) ∧
    (classify_error c = "rate_limit" ↔ c = 429) ∧
    (classify_error c = "transient" ↔ (500 ≤ c ∧ c ≤ 599)) ∧
    (classify_error c = "unknown" ↔
      ¬(c = 400 ∨ c = 403 ∨ c = 404 ∨ c = 429 ∨ (500 ≤ c ∧ c ≤ 599))) := by
  unfold classify_error
  split_ifs with h1 h2 h3 <;>
    refine ⟨?_, ?_, ?_, ?_⟩ <;> simp_all <;> omega

/-- Claim C6: check_facebook_reel_requirements returns True exactly when all
three attributes are present, the video is portrait, the aspect ratio is
within 0.01 of 9:16, and the size and duration bounds hold; with the four
concrete cases of the spec. -/
theorem reel_requirements_spec :
    (∀ w h d : ℚ,
      check_facebook_reel_requirements (some w) (some h) (some d) = some true ↔
        (h > w ∧ |w / h - 0.5625| < 0.01 ∧ 960 ≤ h ∧ h ≤ 1920 ∧
         540 ≤ w ∧ w ≤ 1080 ∧ 3 ≤ d ∧ d ≤ 90)) ∧
    (∀ w h d, check_facebook_reel_requirements none h d ≠ some true ∧
       check_facebook_reel_requirements w none d ≠ some true ∧
       check_facebook_reel_requirements w h none ≠ some true) ∧
    check_facebook_reel_requirements (some 1080) (some 1920) (some 30)
      = some true ∧
    check_facebook_reel_requirements (some 1920) (some 1080) (some 30)
      = some false ∧
    check_facebook_reel_requirements (some 1080) (some 1920) (some 120)
      = some false ∧
    check_facebook_reel_requirements (some 1080) (some 1920) none
      = some false := by
  refine ⟨?_, ?_,
    by norm_num [check_facebook_reel_requirements, abs_lt],
    by norm_num [check_facebook_reel_requirements, abs_lt],
    by norm_num [check_facebook_reel_requirements, abs_lt],
    by norm_num [check_facebook_reel_requirements, abs_lt]⟩
  · intro w h d
    by_cases h0 : h = 0
    · subst h0
      constructor
      · intro hc
        simp [check_facebook_reel_requirements] at hc
      · rintro ⟨-, -, h960, -⟩
        exact absurd h960 (by norm_num)
    · simp only [check_facebook_reel_requirements, if_neg h0, Option.some.injEq,
        Bool.and_eq_true, decide_eq_true_eq]
      constructor
      · rintro ⟨⟨⟨⟨hp, ha⟩, hmin⟩, hmax⟩, hd⟩
        exact ⟨hp, ha, hmin.1, hmax.1, hmin.2, hmax.2, hd.1, hd.2⟩
      · rintro ⟨hp, ha, h1, h2, h3, h4, h5, h6⟩
        exact ⟨⟨⟨⟨hp, ha⟩, ⟨h1, h3⟩⟩, ⟨h2, h4⟩⟩, ⟨h5, h6⟩⟩
  · intro w h d
    refine ⟨?_, ?_, ?_⟩
    · cases h <;> cases d <;> simp [check_facebook_reel_requirements]
    · cases w <;> cases d <;> simp [check_facebook_reel_requirements]
    · cases w <;> cases h <;> simp [check_facebook_reel_requirements]

/-! Event traces: the observable side effects of one loop. -/

/-- Observable effects of a retry or polling loop: a publish POST for the
creation_id, a `time.sleep`, or one invocation of a verification check
function. -/
inductive Ev
  | pubCall
  | sleep (secs : ℚ)
  | checkCall
  deriving DecidableEq, Repr

/-- The JSON "id" field of a publish response body: absent, or present with a
string value (`""` stands for a present but falsy value). -/
inductive IdField
  | absent
  | val (s : String)
  deriving DecidableEq, Repr

/-- Python's `dict.get(key, default)` on the id field. -/
def IdField.getD : IdField → String → String
  | .absent, d => d
  | .val s, _ => s

/-- Python truthiness of a string: only the empty string is falsy. -/
def truthyStr (s : String) : Bool := s ≠ ""

/-- One HTTP response to a publish POST: the status code and the body's
"id" field. -/
structure PubResp where
  status : Int
  idf : IdField
  deriving DecidableEq, Repr

/-- The return sites of a publish retry loop, one constructor per `return`
of the source (the messages sent there distinguish them).  `exhausted` is the
fall-through return after the `for` loop. -/
inductive PubResult
  | timeout
  | success (s : String)
  | noMediaId
  | failedAttempt
  | exhausted
  deriving DecidableEq, Repr

/-! The four publish retry loops.  Each is the body of
`for attempt in range(N)` with the timeout check first; `attempt` is the
Python loop index and `fuel` the iterations the range still holds, so the
loop proper is the aux applied to `0 N`.  `resp k` is the response of the
publish POST of iteration k; `elapsed k` the `time.time() - start_time`
reading at the top of iteration k. -/

/-- Instagram publish retry loop, post_to_instagram (src/meta.py lines
716-763).  On HTTP 200 the body's id defaults to "Unknown"; a falsy id
returns False (site `noMediaId`), otherwise the adapter verifies and returns
True (site `success`). -/
def igPublishAux (resp : Nat → PubResp) (elapsed : Nat → ℚ) :
    Nat → Nat → PubResult × List Ev
  | _, 0 => (.exhausted, [])
  | attempt, fuel + 1 =>
    if elapsed attempt > PUBLISH_MAX_WAIT_TIME then (.timeout, [])
    else
      let r := resp attempt
      if r.status = 200 then
        let instagram_id := r.idf.getD "Unknown"
        if ¬ truthyStr instagram_id then (.noMediaId, [.pubCall])
        else (.success instagram_id, [.pubCall])
      else
        let error_type := classify_error r.status
        if error_type = "permanent" ∨ attempt = INSTAGRAM_PUBLISH_ATTEMPTS - 1
        then (.failedAttempt, [.pubCall])
        else
          let pre := if attempt < INSTAGRAM_PUBLISH_ATTEMPTS - 1
            then [Ev.sleep PUBLISH_RETRY_INTERVAL] else []
          let rest := igPublishAux resp elapsed (attempt + 1) fuel
          (rest.1, Ev.pubCall :: pre ++ rest.2)

def igPublish (resp : Nat → PubResp) (elapsed : Nat → ℚ) :
    PubResult × List Ev :=
  igPublishAux resp elapsed 0 INSTAGRAM_PUBLISH_ATTEMPTS

/-- Facebook Reel finish/publish retry loop, post_facebook_reel (src/meta.py
lines 840-878).  On HTTP 200 the body's id defaults to the session's
video_id and the loop always succeeds. -/
def fbReelPublishAux (resp : Nat → PubResp) (elapsed : Nat → ℚ)
    (video_id : String) : Nat → Nat → PubResult × List Ev
  | _, 0 => (.exhausted, [])
  | attempt, fuel + 1 =>
    if elapsed attempt > PUBLISH_MAX_WAIT_TIME then (.timeout, [])
    else
      let r := resp attempt
      if r.status = 200 then
        let fb_video_id := r.idf.getD video_id
        (.success fb_video_id, [.pubCall])
      else
        let error_type := classify_error r.status
        if error_type = "permanent" ∨ attempt = FACEBOOK_PUBLISH_ATTEMPTS - 1
        then (.failedAttempt, [.pubCall])
        else
          let pre := if attempt < FACEBOOK_PUBLISH_ATTEMPTS - 1
            then [Ev.sleep PUBLISH_RETRY_INTERVAL] else []
          let rest := fbReelPublishAux resp elapsed video_id (attempt + 1) fuel
          (rest.1, Ev.pubCall :: pre ++ rest.2)

def fbReelPublish (resp : Nat → PubResp) (elapsed : Nat → ℚ)
    (video_id : String) : PubResult × List Ev :=
  fbReelPublishAux resp elapsed video_id 0 FACEBOOK_PUBLISH_ATTEMPTS

/-- Facebook plain-video publish retry loop, post_facebook_video (src/meta.py
lines 894-934).  On HTTP 200 the body's id defaults to "Unknown" and the
loop always succeeds. -/
def fbVideoPublishAux (resp : Nat → PubResp) (elapsed : Nat → ℚ) :
    Nat → Nat → PubResult × List Ev
  | _, 0 => (.exhausted, [])
  | attempt, fuel + 1 =>
    if elapsed attempt > PUBLISH_MAX_WAIT_TIME then (.timeout, [])
    else
      let r := resp attempt
      if r.status = 200 then
        let video_id := r.idf.getD "Unknown"
        (.success video_id, [.pubCall])
      else
        let error_type := classify_error r.status
        if error_type = "permanent" ∨ attempt = FACEBOOK_PUBLISH_ATTEMPTS - 1
        then (.failedAttempt, [.pubCall])
        else
          let pre := if attempt < FACEBOOK_PUBLISH_ATTEMPTS - 1
            then [Ev.sleep PUBLISH_RETRY_INTERVAL] else []
          let rest := fbVideoPublishAux resp elapsed (attempt + 1) fuel
          (rest.1, Ev.pubCall :: pre ++ rest.2)

def fbVideoPublish (resp : Nat → PubResp) (elapsed : Nat → ℚ) :
    PubResult × List Ev :=
  fbVideoPublishAux resp elapsed 0 FACEBOOK_PUBLISH_ATTEMPTS

/-- Threads publish retry loop, post_to_threads (src/meta.py lines
1030-1066).  On HTTP 200 the loop returns the body's id (default "Unknown")
as the thread_id for verification by the caller. -/
def threadsPublishAux (resp : Nat → PubResp) (elapsed : Nat → ℚ) :
    Nat → Nat → PubResult × List Ev
  | _, 0 => (.exhausted, [])
  | attempt, fuel + 1 =>
    if elapsed attempt > PUBLISH_MAX_WAIT_TIME then (.timeout, [])
    else
      let r := resp attempt
      if r.status = 200 then
        let thread_id := r.idf.getD "Unknown"
        (.success thread_id, [.pubCall])
      else
        let error_type := classify_error r.status
        if error_type = "permanent" ∨ attempt = THREADS_PUBLISH_ATTEMPTS - 1
        then (.failedAttempt, [.pubCall])
        else
          let pre := if attempt < THREADS_PUBLISH_ATTEMPTS - 1
            then [Ev.sleep PUBLISH_RETRY_INTERVAL] else []
          let rest := threadsPublishAux resp elapsed (attempt + 1) fuel
          (rest.1, Ev.pubCall :: pre ++ rest.2)

def threadsPublish (resp : Nat → PubResp) (elapsed : Nat → ℚ) :
    PubResult × List Ev :=
  threadsPublishAux resp elapsed 0 THREADS_PUBLISH_ATTEMPTS

/-! Media-readiness polling. -/

/-- One HTTP response to a media-status poll: the status code and the body's
status field (`none` when the field is absent). -/
structure PollResp where
  status : Int
  body : Option String
  deriving DecidableEq, Repr

/-- How a media-readiness polling loop ends: a non-200 status poll (return
False), a terminal ERROR (return False), FINISHED (grace sleep then break),
or the attempt cap exhausted with no terminal status (the `for` loop just
ends and control falls through). -/
inductive PollResult
  | httpFail
  | procError
  | finished
  | exhausted
  deriving DecidableEq, Repr

/-- Instagram reel status polling loop, post_to_instagram (src/meta.py lines
679-709): the body field is `status.get("status_code", "UNKNOWN")`; FINISHED
sleeps 15 seconds then breaks; a non-terminal status sleeps
INSTAGRAM_REEL_STATUS_WAIT_TIME and polls again. -/
def igPollAux (resp : Nat → PollResp) : Nat → Nat → PollResult × List Ev
  | _, 0 => (.exhausted, [])
  | attempt, fuel + 1 =>
    let r := resp attempt
    if r.status ≠ 200 then (.httpFail, [])
    else
      let current_status := r.body.getD "UNKNOWN"
      if current_status = "FINISHED" then (.finished, [.sleep 15])
      else if current_status = "ERROR" then (.procError, [])
      else
        let rest := igPollAux resp (attempt + 1) fuel
        (rest.1, Ev.sleep INSTAGRAM_REEL_STATUS_WAIT_TIME :: rest.2)

def igPoll (resp : Nat → PollResp) : PollResult × List Ev :=
  igPollAux resp 0 INSTAGRAM_REEL_STATUS_RETRIES

/-- Threads status polling loop, post_to_threads (src/meta.py lines
1001-1021): the body field is `poll_res.json().get("status")` (no default);
FINISHED sleeps 3 seconds then breaks; a non-terminal status sleeps 4
seconds and polls again. -/
def threadsPollAux (resp : Nat → PollResp) : Nat → Nat → PollResult × List Ev
  | _, 0 => (.exhausted, [])
  | attempt, fuel + 1 =>
    let r := resp attempt
    if r.status ≠ 200 then (.httpFail, [])
    else
      let status := r.body
      if status = some "FINISHED" then (.finished, [.sleep 3])
      else if status = some "ERROR" then (.procError, [])
      else
        let rest := threadsPollAux resp (attempt + 1) fuel
        (rest.1, Ev.sleep 4 :: rest.2)

def threadsPoll (resp : Nat → PollResp) : PollResult × List Ev :=
  threadsPollAux resp 0 THREADS_POLL_MAX_RETRIES

/-- Result of the poll-then-publish tail of an adapter. -/
inductive FlowResult
  | pollHttpFail
  | pollError
  | published (r : PubResult)
  deriving DecidableEq, Repr

/-- The tail of post_to_instagram for REELS after container creation
(src/meta.py lines 679-763): the status poll, then the publish loop.  Only a
non-200 status poll or a terminal ERROR returns before the publish loop;
both a FINISHED break and an exhausted poll cap fall through to it. -/
def igReelAfterContainer (poll : Nat → PollResp) (resp : Nat → PubResp)
    (elapsed : Nat → ℚ) : FlowResult × List Ev :=
  match igPoll poll with
  | (.httpFail, evs) => (.pollHttpFail, evs)
  | (.procError, evs) => (.pollError, evs)
  | (.finished, evs) =>
      let pub := igPublish resp elapsed
      (.published pub.1, evs ++ pub.2)
  | (.exhausted, evs) =>
      let pub := igPublish resp elapsed
      (.published pub.1, evs ++ pub.2)

/-- The tail of post_to_threads for media posts after container creation
(src/meta.py lines 1001-1066): the status poll, then the publish loop; as
for Instagram, an exhausted poll cap falls through to the publish loop. -/
def threadsAfterContainer (poll : Nat → PollResp) (resp : Nat → PubResp)
    (elapsed : Nat → ℚ) : FlowResult × List Ev :=
  match threadsPoll poll with
  | (.httpFail, evs) => (.pollHttpFail, evs)
  | (.procError, evs) => (.pollError, evs)
  | (.finished, evs) =>
      let pub := threadsPublish resp elapsed
      (.published pub.1, evs ++ pub.2)
  | (.exhausted, evs) =>
      let pub := threadsPublish resp elapsed
      (.published pub.1, evs ++ pub.2)

/-! The unified verification loop. -/

/-- Result of one `check_fn()` call inside unified_verify_post: a returned
(success, status_code, message) triple — the message plays no role in
control flow and is omitted — or an exception escaping the call. -/
inductive CheckRes
  | res (success : Bool) (code : Int)
  | exn
  deriving DecidableEq, Repr

/-- unified_verify_post's retry loop (src/meta.py lines 1103-1176), the
check function embedded as the sequence of results of its invocations.  An
exception anywhere inside is caught by the enclosing try and yields False;
a permanent error breaks (warning, then False); rate_limit waits 30 seconds
when attempts remain; transient/unknown wait VERIFY_INTERVAL (the
exponential-backoff flag is off in the source). -/
def unifiedVerifyAux (check : Nat → CheckRes) : Nat → Nat → Bool × List Ev
  | _, 0 => (false, [])
  | attempt, fuel + 1 =>
    match check attempt with
    | .exn => (false, [.checkCall])
    | .res success code =>
      if success then (true, [.checkCall])
      else
        let error_type := classify_error code
        if error_type = "permanent" then (false, [.checkCall])
        else if error_type = "rate_limit" then
          let pre := if attempt < VERIFY_ATTEMPTS - 1
            then [Ev.sleep 30] else []
          let rest := unifiedVerifyAux check (attempt + 1) fuel
          (rest.1, Ev.checkCall :: pre ++ rest.2)
        else if error_type = "transient" ∨ error_type = "unknown" then
          let backoff_time := if USE_EXPONENTIAL_BACKOFF
            then VERIFY_INTERVAL * ((attempt : ℚ) + 1) else VERIFY_INTERVAL
          let pre := if attempt < VERIFY_ATTEMPTS - 1
            then [Ev.sleep backoff_time] else []
          let rest := unifiedVerifyAux check (attempt + 1) fuel
          (rest.1, Ev.checkCall :: pre ++ rest.2)
        else
          let rest := unifiedVerifyAux check (attempt + 1) fuel
          (rest.1, Ev.checkCall :: rest.2)

def unified_verify_post (check : Nat → CheckRes) : Bool × List Ev :=
  unifiedVerifyAux check 0 VERIFY_ATTEMPTS

/-! Adapter outcomes around verification. -/

/-- The value post_to_instagram returns as a function of its publish loop,
src/meta.py lines 730-763: on the success site the verifier runs and its
boolean is discarded (lines 740-741), the adapter returns True; every other
site returns False with no verification. -/
def post_to_instagram_outcome (resp : Nat → PubResp) (elapsed : Nat → ℚ)
    (check : Nat → CheckRes) : Bool × List Ev :=
  match igPublish resp elapsed with
  | (.success _, evs) =>
      let v := unified_verify_post check
      (true, evs ++ v.2)
  | (_, evs) => (false, evs)

/-- The value post_facebook_reel returns as a function of its publish loop,
src/meta.py lines 852-878: on success the verifier's boolean is discarded
(lines 856-857) and the adapter returns True. -/
def post_facebook_reel_outcome (resp : Nat → PubResp) (elapsed : Nat → ℚ)
    (video_id : String) (check : Nat → CheckRes) : Bool × List Ev :=
  match fbReelPublish resp elapsed video_id with
  | (.success _, evs) =>
      let v := unified_verify_post check
      (true, evs ++ v.2)
  | (_, evs) => (false, evs)

/-- The value post_facebook_video returns as a function of its publish loop,
src/meta.py lines 908-934: on success the verifier's boolean is discarded
(lines 912-913) and the adapter returns True. -/
def post_facebook_video_outcome (resp : Nat → PubResp) (elapsed : Nat → ℚ)
    (check : Nat → CheckRes) : Bool × List Ev :=
  match fbVideoPublish resp elapsed with
  | (.success _, evs) =>
      let v := unified_verify_post check
      (true, evs ++ v.2)
  | (_, evs) => (false, evs)

/-! The orchestrator, process_file. -/

/-- Python-level result of one call inside the try block of process_file: a
returned value, or an exception escaping into the except clause. -/
inductive Call (α : Type)
  | val (a : α)
  | exn
  deriving DecidableEq, Repr

/-- Return value of post_to_threads: False, or a thread id string. -/
inductive ThreadsRet
  | fail
  | tid (s : String)
  deriving DecidableEq, Repr

/-- Events of one process_file run: the three adapter invocations, the
Threads verification, and the storage delete. -/
inductive Ev2
  | igCall
  | fbCall
  | threadsCall
  | verifyThreadsCall
  | deleteCall
  deriving DecidableEq, Repr

/-- Environment of one process_file run once a file has been selected: the
outcomes of the collaborator calls it makes.  get_page_access_token and
check_instagram_page_connection catch their own exceptions and return
falsy/boolean values, so they are plain booleans; the three adapters may
raise into process_file's except clause. -/
structure ProcEnv where
  pageToken : Bool
  igConnected : Bool
  ig : Call Bool
  fb : Call Bool
  threads : Call ThreadsRet
  deriving DecidableEq, Repr

/-- The Threads leg of process_file (src/meta.py lines 1382-1389): the
adapter's value is truthy and differs from "Unknown" iff Threads is recorded
successful and verified. -/
def threadsStep (ig_r fb_r : Bool) (th : Call ThreadsRet) (evs : List Ev2) :
    (Bool × Bool × Bool) × List Ev2 :=
  match th with
  | .exn => ((ig_r, fb_r, false), evs ++ [.threadsCall])
  | .val .fail => ((ig_r, fb_r, false), evs ++ [.threadsCall])
  | .val (.tid s) =>
      if truthyStr s ∧ s ≠ "Unknown" then
        ((ig_r, fb_r, true), evs ++ [.threadsCall, .verifyThreadsCall])
      else ((ig_r, fb_r, false), evs ++ [.threadsCall])

/-- The try block of process_file (src/meta.py lines 1363-1392) over the
results dict initialised all-False (lines 1357-1361): an exception in any
adapter skips the rest of the block (caught at line 1391), leaving later
platforms at their False defaults.  Without a page token Instagram and
Facebook are both recorded failed; with a token but no Instagram link only
Instagram is skipped, Facebook is still attempted. -/
def processTryBlock (e : ProcEnv) : (Bool × Bool × Bool) × List Ev2 :=
  if e.pageToken then
    if e.igConnected then
      match e.ig with
      | .exn => ((false, false, false), [.igCall])
      | .val ig_r =>
        match e.fb with
        | .exn => ((ig_r, false, false), [.igCall, .fbCall])
        | .val fb_r => threadsStep ig_r fb_r e.threads [.igCall, .fbCall]
    else
      match e.fb with
      | .exn => ((false, false, false), [.fbCall])
      | .val fb_r => threadsStep false fb_r e.threads [.fbCall]
  else
    threadsStep false false e.threads []

/-- process_file after a file has been selected (src/meta.py lines
1357-1429): the try block over the three adapters, then the unconditional
delete in its own try (lines 1395-1399), then the summary; returns whether
any platform succeeded (line 1429). -/
def process_file (e : ProcEnv) : Bool × List Ev2 :=
  let t := processTryBlock e
  (t.1.1 || t.1.2.1 || t.1.2.2, t.2 ++ [.deleteCall])

/-! Helper lemmas shared by the claims. -/

lemma classify_permanent {c : Int} (h : c = 400 ∨ c = 403 ∨ c = 404) :
    classify_error c = "permanent" := by
  rcases h with h | h | h <;> simp [classify_error, h]

lemma classify_429 : classify_error 429 = "rate_limit" := by
  simp [classify_error]

lemma status_of_permanent {c : Int} (h : c = 400 ∨ c = 403 ∨ c = 404) :
    c ≠ 200 := by
  rcases h with h | h | h <;> simp [h]

/-- Claim C4: in each of the four publish retry loops, an iteration that
begins with more than PUBLISH_MAX_WAIT_TIME (30) seconds elapsed while
attempts remain returns the timeout failure at once: no publish call, no
sleep, whatever any earlier error was classified as. -/
theorem publish_timeout_precedence (resp : Nat → PubResp) (elapsed : Nat → ℚ)
    (video_id : String) (attempt fuel : Nat) (hf : 0 < fuel)
    (ht : elapsed attempt > PUBLISH_MAX_WAIT_TIME) :
    igPublishAux resp elapsed attempt fuel = (.timeout, []) ∧
    fbReelPublishAux resp elapsed video_id attempt fuel = (.timeout, []) ∧
    fbVideoPublishAux resp elapsed attempt fuel = (.timeout, []) ∧
    threadsPublishAux resp elapsed attempt fuel = (.timeout, []) := by
  obtain ⟨f, rfl⟩ : ∃ f, fuel = f + 1 := ⟨fuel - 1, by omega⟩
  refine ⟨?_, ?_, ?_, ?_⟩ <;>
    simp [igPublishAux, fbReelPublishAux, fbVideoPublishAux,
      threadsPublishAux, ht]

theorem publish_timeout_precedence_witness :
    0 < 1 ∧ (31 : ℚ) > PUBLISH_MAX_WAIT_TIME ∧
    igPublishAux (fun _ => ⟨200, .absent⟩) (fun _ => 31) 0 1 =
      (.timeout, []) ∧
    threadsPublishAux (fun _ => ⟨200, .absent⟩) (fun _ => 31) 0 1 =
      (.timeout, []) := by
  have h := publish_timeout_precedence (fun _ => ⟨200, .absent⟩)
    (fun _ => 31) "v" 0 1 (by norm_num)
    (by norm_num [PUBLISH_MAX_WAIT_TIME])
  exact ⟨by norm_num, by norm_num [PUBLISH_MAX_WAIT_TIME], h.1, h.2.2.2⟩

/-- Claim C5: a failure whose status code classifies as permanent (400, 403
or 404) ends every retry loop — the four publish loops and the verification
loop — immediately after that single attempt: exactly one call, no sleep,
failure returned, however many attempts remain. -/
theorem permanent_stops_all_loops (resp : Nat → PubResp) (elapsed : Nat → ℚ)
    (video_id : String) (check : Nat → CheckRes) (code : Int)
    (attempt fuel : Nat) (hf : 0 < fuel)
    (ht : ¬ elapsed attempt > PUBLISH_MAX_WAIT_TIME)
    (hcode : code = 400 ∨ code = 403 ∨ code = 404)
    (hstatus : (resp attempt).status = code)
    (hcheck : check attempt = .res false code) :
    igPublishAux resp elapsed attempt fuel = (.failedAttempt, [.pubCall]) ∧
    fbReelPublishAux resp elapsed video_id attempt fuel
      = (.failedAttempt, [.pubCall]) ∧
    fbVideoPublishAux resp elapsed attempt fuel
      = (.failedAttempt, [.pubCall]) ∧
    threadsPublishAux resp elapsed attempt fuel
      = (.failedAttempt, [.pubCall]) ∧
    unifiedVerifyAux check attempt fuel = (false, [.checkCall]) := by
  obtain ⟨f, rfl⟩ : ∃ f, fuel = f + 1 := ⟨fuel - 1, by omega⟩
  have hcl : classify_error code = "permanent" := classify_permanent hcode
  have hne : code ≠ 200 := status_of_permanent hcode
  refine ⟨?_, ?_, ?_, ?_, ?_⟩ <;>
    simp [igPublishAux, fbReelPublishAux, fbVideoPublishAux,
      threadsPublishAux, unifiedVerifyAux, ht, hne, hstatus, hcl, hcheck]

theorem permanent_stops_all_loops_witness :
    igPublishAux (fun _ => ⟨403, .absent⟩) (fun _ => 0) 0 1
      = (.failedAttempt, [.pubCall]) ∧
    fbReelPublishAux (fun _ => ⟨403, .absent⟩) (fun _ => 0) "v" 0 1
      = (.failedAttempt, [.pubCall]) ∧
    fbVideoPublishAux (fun _ => ⟨403, .absent⟩) (fun _ => 0) 0 1
      = (.failedAttempt, [.pubCall]) ∧
    threadsPublishAux (fun _ => ⟨403, .absent⟩) (fun _ => 0) 0 1
      = (.failedAttempt, [.pubCall]) ∧
    unifiedVerifyAux (fun _ => .res false 403) 0 1 = (false, [.checkCall]) :=
  permanent_stops_all_loops (fun _ => ⟨403, .absent⟩) (fun _ => 0) "v"
    (fun _ => .res false 403) 403 0 1 (by norm_num)
    (by norm_num [PUBLISH_MAX_WAIT_TIME]) (by tauto) rfl rfl

/-- Claim C2 as the code has it: after a 429-classified failure with
attempts remaining (and no timeout), only the verification loop sleeps the
extended 30-second wait; each of the four publish loops sleeps the normal
PUBLISH_RETRY_INTERVAL of 5 seconds — the rate_limit classification makes no
difference to their wait. -/
theorem rate_limit_sleep_behavior (resp : Nat → PubResp) (elapsed : Nat → ℚ)
    (video_id : String) (check : Nat → CheckRes) (attempt fuel : Nat)
    (hf : 0 < fuel) (ht : ¬ elapsed attempt > PUBLISH_MAX_WAIT_TIME)
    (h429 : (resp attempt).status = 429)
    (hcheck : check attempt = .res false 429)
    (hIG : attempt < INSTAGRAM_PUBLISH_ATTEMPTS - 1)
    (hTH : attempt < THREADS_PUBLISH_ATTEMPTS - 1)
    (hV : attempt < VERIFY_ATTEMPTS - 1) :
    (∃ t, (igPublishAux resp elapsed attempt fuel).2 =
      Ev.pubCall :: Ev.sleep PUBLISH_RETRY_INTERVAL :: t) ∧
    (∃ t, (fbReelPublishAux resp elapsed video_id attempt fuel).2 =
      Ev.pubCall :: Ev.sleep PUBLISH_RETRY_INTERVAL :: t) ∧
    (∃ t, (fbVideoPublishAux resp elapsed attempt fuel).2 =
      Ev.pubCall :: Ev.sleep PUBLISH_RETRY_INTERVAL :: t) ∧
    (∃ t, (threadsPublishAux resp elapsed attempt fuel).2 =
      Ev.pubCall :: Ev.sleep PUBLISH_RETRY_INTERVAL :: t) ∧
    (∃ t, (unifiedVerifyAux check attempt fuel).2 =
      Ev.checkCall :: Ev.sleep (30 : ℚ) :: t) := by
  obtain ⟨f, rfl⟩ : ∃ f, fuel = f + 1 := ⟨fuel - 1, by omega⟩
  have hne : (429 : Int) ≠ 200 := by decide
  have hFB : attempt < FACEBOOK_PUBLISH_ATTEMPTS - 1 := hIG
  refine ⟨?_, ?_, ?_, ?_, ?_⟩
  · exact ⟨(igPublishAux resp elapsed (attempt + 1) f).2, by
      simp [igPublishAux, ht, h429, hne, classify_429, ne_of_lt hIG, hIG]⟩
  · exact ⟨(fbReelPublishAux resp elapsed video_id (attempt + 1) f).2, by
      simp [fbReelPublishAux, ht, h429, hne, classify_429, ne_of_lt hFB, hFB]⟩
  · exact ⟨(fbVideoPublishAux resp elapsed (attempt + 1) f).2, by
      simp [fbVideoPublishAux, ht, h429, hne, classify_429, ne_of_lt hFB, hFB]⟩
  · exact ⟨(threadsPublishAux resp elapsed (attempt + 1) f).2, by
      simp [threadsPublishAux, ht, h429, hne, classify_429, ne_of_lt hTH, hTH]⟩
  · exact ⟨(unifiedVerifyAux check (attempt + 1) f).2, by
      simp [unifiedVerifyAux, hcheck, classify_429, hV]⟩

theorem rate_limit_sleep_behavior_witness :
    (∃ t, (igPublishAux (fun _ => ⟨429, .absent⟩) (fun _ => 0) 0 2).2 =
      Ev.pubCall :: Ev.sleep PUBLISH_RETRY_INTERVAL :: t) ∧
    (∃ t, (unifiedVerifyAux (fun _ => .res false 429) 0 2).2 =
      Ev.checkCall :: Ev.sleep (30 : ℚ) :: t) := by
  have h := rate_limit_sleep_behavior (fun _ => ⟨429, .absent⟩) (fun _ => 0)
    "v" (fun _ => .res false 429) 0 2 (by norm_num)
    (by norm_num [PUBLISH_MAX_WAIT_TIME]) rfl rfl
    (by norm_num [INSTAGRAM_PUBLISH_ATTEMPTS])
    (by norm_num [THREADS_PUBLISH_ATTEMPTS])
    (by norm_num [VERIFY_ATTEMPTS])
  exact ⟨h.1, h.2.2.2.2⟩

/-- Environment of the C2 counterexample: the first Instagram publish
attempt is answered 429, the second 400. -/
def c2Resp : Nat → PubResp :=
  fun k => if k = 0 then ⟨429, .absent⟩ else ⟨400, .absent⟩

def c2Elapsed : Nat → ℚ := fun _ => 0

/-- Claim C2 fails on the code: in the Instagram publish loop a 429 failure
with attempts remaining is followed by a sleep of exactly 5 seconds — the
normal retry interval, not at least the extended 30-second wait. -/
theorem rate_limit_counterexample :
    igPublish c2Resp c2Elapsed =
      (.failedAttempt, [.pubCall, .sleep 5, .pubCall]) ∧
    ¬ (30 : ℚ) ≤ 5 := by
  constructor
  · decide
  · norm_num

/-- Claim C7 as the code has it: the first HTTP 200 publish response ends
every publish loop at once with exactly that one publish call — a
creation_id is never published twice.  Facebook (both flavours) and Threads
return their success site on every 200; Instagram returns success unless the
200 body carries a present-but-falsy id, in which case it returns the
noMediaId failure site — still with no further publish call. -/
theorem publish_success_terminates (resp : Nat → PubResp) (elapsed : Nat → ℚ)
    (video_id : String) (attempt fuel : Nat) (hf : 0 < fuel)
    (ht : ¬ elapsed attempt > PUBLISH_MAX_WAIT_TIME)
    (h200 : (resp attempt).status = 200) :
    igPublishAux resp elapsed attempt fuel =
      (if truthyStr ((resp attempt).idf.getD "Unknown")
       then (.success ((resp attempt).idf.getD "Unknown"), [.pubCall])
       else (.noMediaId, [.pubCall])) ∧
    fbReelPublishAux resp elapsed video_id attempt fuel =
      (.success ((resp attempt).idf.getD video_id), [.pubCall]) ∧
    fbVideoPublishAux resp elapsed attempt fuel =
      (.success ((resp attempt).idf.getD "Unknown"), [.pubCall]) ∧
    threadsPublishAux resp elapsed attempt fuel =
      (.success ((resp attempt).idf.getD "Unknown"), [.pubCall]) := by
  obtain ⟨f, rfl⟩ : ∃ f, fuel = f + 1 := ⟨fuel - 1, by omega⟩
  refine ⟨?_, ?_, ?_, ?_⟩ <;>
    [skip;
     simp [fbReelPublishAux, ht, h200];
     simp [fbVideoPublishAux, ht, h200];
     simp [threadsPublishAux, ht, h200]]
  by_cases htr : truthyStr ((resp attempt).idf.getD "Unknown") <;>
    simp [igPublishAux, ht, h200, htr]

theorem publish_success_terminates_witness :
    igPublishAux (fun _ => ⟨200, .val "17955"⟩) (fun _ => 0) 0 3 =
      (.success "17955", [.pubCall]) ∧
    threadsPublishAux (fun _ => ⟨200, .val "17955"⟩) (fun _ => 0) 0 5 =
      (.success "17955", [.pubCall]) := by
  have h := publish_success_terminates (fun _ => ⟨200, .val "17955"⟩)
    (fun _ => 0) "v" 0 3 (by norm_num)
    (by norm_num [PUBLISH_MAX_WAIT_TIME]) rfl
  have h5 := publish_success_terminates (fun _ => ⟨200, .val "17955"⟩)
    (fun _ => 0) "v" 0 5 (by norm_num)
    (by norm_num [PUBLISH_MAX_WAIT_TIME]) rfl
  refine ⟨?_, h5.2.2.2⟩
  have := h.1
  simpa [IdField.getD, truthyStr] using this

/-- Environment of the C7 counterexample: every Instagram publish attempt is
answered HTTP 200 with the body `id` present but empty. -/
def c7Resp : Nat → PubResp := fun _ => ⟨200, .val ""⟩

/-- Claim C7 fails on the code as stated: the first Instagram publish
attempt is answered HTTP 200, yet — the body's id being present and falsy —
the loop returns the noMediaId failure site and the adapter returns False,
not success (though indeed with no further publish call). -/
theorem success_return_counterexample :
    (c7Resp 0).status = 200 ∧
    igPublish c7Resp (fun _ => 0) = (.noMediaId, [.pubCall]) ∧
    post_to_instagram_outcome c7Resp (fun _ => 0) (fun _ => .exn) =
      (false, [.pubCall]) := by
  refine ⟨rfl, by decide, ?_⟩
  have hpub : igPublish c7Resp (fun _ => 0) = (.noMediaId, [.pubCall]) := by
    decide
  simp [post_to_instagram_outcome, hpub]

lemma igPollAux_exhausted (resp : Nat → PollResp) :
    ∀ fuel attempt, (∀ i, attempt ≤ i → i < attempt + fuel →
      (resp i).status = 200 ∧ (resp i).body.getD "UNKNOWN" ≠ "FINISHED" ∧
      (resp i).body.getD "UNKNOWN" ≠ "ERROR") →
    (igPollAux resp attempt fuel).1 = .exhausted := by
  intro fuel
  induction fuel with
  | zero => intro attempt _; rfl
  | succ f ih =>
    intro attempt h
    have h0 := h attempt le_rfl (by omega)
    simp [igPollAux, h0.1, h0.2.1, h0.2.2]
    exact ih (attempt + 1) (fun i hi1 hi2 => h i (by omega) (by omega))

lemma threadsPollAux_exhausted (resp : Nat → PollResp) :
    ∀ fuel attempt, (∀ i, attempt ≤ i → i < attempt + fuel →
      (resp i).status = 200 ∧ (resp i).body ≠ some "FINISHED" ∧
      (resp i).body ≠ some "ERROR") →
    (threadsPollAux resp attempt fuel).1 = .exhausted := by
  intro fuel
  induction fuel with
  | zero => intro attempt _; rfl
  | succ f ih =>
    intro attempt h
    have h0 := h attempt le_rfl (by omega)
    simp [threadsPollAux, h0.1, h0.2.1, h0.2.2]
    exact ih (attempt + 1) (fun i hi1 hi2 => h i (by omega) (by omega))

lemma igPublishAux_calls (resp : Nat → PubResp) (elapsed : Nat → ℚ)
    (attempt fuel : Nat) (hf : 0 < fuel)
    (ht : ¬ elapsed attempt > PUBLISH_MAX_WAIT_TIME) :
    Ev.pubCall ∈ (igPublishAux resp elapsed attempt fuel).2 := by
  obtain ⟨f, rfl⟩ : ∃ f, fuel = f + 1 := ⟨fuel - 1, by omega⟩
  rw [igPublishAux, if_neg ht]
  by_cases h200 : (resp attempt).status = 200 <;>
    simp only [h200, if_true, if_false] <;>
    split_ifs <;> simp

lemma threadsPublishAux_calls (resp : Nat → PubResp) (elapsed : Nat → ℚ)
    (attempt fuel : Nat) (hf : 0 < fuel)
    (ht : ¬ elapsed attempt > PUBLISH_MAX_WAIT_TIME) :
    Ev.pubCall ∈ (threadsPublishAux resp elapsed attempt fuel).2 := by
  obtain ⟨f, rfl⟩ : ∃ f, fuel = f + 1 := ⟨fuel - 1, by omega⟩
  rw [threadsPublishAux, if_neg ht]
  by_cases h200 : (resp attempt).status = 200
  · simp [h200]
  · simp only [h200, if_false]
    split_ifs <;> simp

/-- Claim C1 as the code has it: when every status poll up to the cap (10
for Instagram reels, 60 for Threads) answers 200 with a non-terminal status,
the polling loop simply runs out and control falls through — the adapter
does not treat exhaustion as a failure, and (the publish loop's own clock
permitting) a publish call IS issued for that creation_id. -/
theorem poll_exhaustion_falls_through (pollR : Nat → PollResp)
    (pubR : Nat → PubResp) (elapsed : Nat → ℚ)
    (hIG : ∀ i, i < INSTAGRAM_REEL_STATUS_RETRIES →
      (pollR i).status = 200 ∧ (pollR i).body.getD "UNKNOWN" ≠ "FINISHED" ∧
      (pollR i).body.getD "UNKNOWN" ≠ "ERROR")
    (hTH : ∀ i, i < THREADS_POLL_MAX_RETRIES →
      (pollR i).status = 200 ∧ (pollR i).body ≠ some "FINISHED" ∧
      (pollR i).body ≠ some "ERROR")
    (ht : ¬ elapsed 0 > PUBLISH_MAX_WAIT_TIME) :
    (igPoll pollR).1 = .exhausted ∧
    Ev.pubCall ∈ (igReelAfterContainer pollR pubR elapsed).2 ∧
    (threadsPoll pollR).1 = .exhausted ∧
    Ev.pubCall ∈ (threadsAfterContainer pollR pubR elapsed).2 := by
  have hig : (igPoll pollR).1 = .exhausted :=
    igPollAux_exhausted pollR INSTAGRAM_REEL_STATUS_RETRIES 0
      (fun i _ hi2 => hIG i (by omega))
  have hth : (threadsPoll pollR).1 = .exhausted :=
    threadsPollAux_exhausted pollR THREADS_POLL_MAX_RETRIES 0
      (fun i _ hi2 => hTH i (by omega))
  refine ⟨hig, ?_, hth, ?_⟩
  · rcases hp : igPoll pollR with ⟨pr, evs⟩
    rw [hp] at hig
    subst hig
    simp only [igReelAfterContainer, hp]
    exact List.mem_append_right _
      (igPublishAux_calls pubR elapsed 0 INSTAGRAM_PUBLISH_ATTEMPTS
        (by norm_num [INSTAGRAM_PUBLISH_ATTEMPTS]) ht)
  · rcases hp : threadsPoll pollR with ⟨pr, evs⟩
    rw [hp] at hth
    subst hth
    simp only [threadsAfterContainer, hp]
    exact List.mem_append_right _
      (threadsPublishAux_calls pubR elapsed 0 THREADS_PUBLISH_ATTEMPTS
        (by norm_num [THREADS_PUBLISH_ATTEMPTS]) ht)

/-- Environment of the C1 theorems: every status poll is answered 200 with
"IN_PROGRESS", every publish attempt with 400, the publish clock at 0. -/
def c1PollResp : Nat → PollResp := fun _ => ⟨200, some "IN_PROGRESS"⟩

def c1PubResp : Nat → PubResp := fun _ => ⟨400, .absent⟩

def c1Elapsed : Nat → ℚ := fun _ => 0

theorem poll_exhaustion_falls_through_witness :
    (igPoll c1PollResp).1 = .exhausted ∧
    Ev.pubCall ∈ (igReelAfterContainer c1PollResp c1PubResp c1Elapsed).2 := by
  have h := poll_exhaustion_falls_through c1PollResp c1PubResp c1Elapsed
    (fun i _ => by simp [c1PollResp]) (fun i _ => by simp [c1PollResp])
    (by norm_num [c1Elapsed, PUBLISH_MAX_WAIT_TIME])
  exact ⟨h.1, h.2.1⟩

/-- Claim C1 fails on the code: with the attempt cap exhausted and no
terminal status ever reported (ten, respectively sixty, "IN_PROGRESS"
answers), both adapters still issue a publish call for the creation_id
instead of aborting that platform's publish. -/
theorem poll_exhaustion_counterexample :
    (igPoll c1PollResp).1 = .exhausted ∧
    Ev.pubCall ∈ (igReelAfterContainer c1PollResp c1PubResp c1Elapsed).2 ∧
    (threadsPoll c1PollResp).1 = .exhausted ∧
    Ev.pubCall ∈ (threadsAfterContainer c1PollResp c1PubResp c1Elapsed).2 := by
  decide

/-- Claim C8: verification never changes the published outcome.  Each
adapter's boolean result is the same for any two behaviours of the
verification check function (returning True, returning False, or raising —
unified_verify_post swallows the exception and returns False), and whenever
the publish loop succeeded the adapter returns True whatever the verifier
does. -/
theorem verification_is_nonfatal (resp : Nat → PubResp) (elapsed : Nat → ℚ)
    (video_id : String) (check check' : Nat → CheckRes) :
    ((post_to_instagram_outcome resp elapsed check).1 =
      (post_to_instagram_outcome resp elapsed check').1) ∧
    ((post_facebook_reel_outcome resp elapsed video_id check).1 =
      (post_facebook_reel_outcome resp elapsed video_id check').1) ∧
    ((post_facebook_video_outcome resp elapsed check).1 =
      (post_facebook_video_outcome resp elapsed check').1) ∧
    (∀ s evs, igPublish resp elapsed = (.success s, evs) →
      (post_to_instagram_outcome resp elapsed check).1 = true) ∧
    (∀ s evs, fbReelPublish resp elapsed video_id = (.success s, evs) →
      (post_facebook_reel_outcome resp elapsed video_id check).1 = true) ∧
    (∀ s evs, fbVideoPublish resp elapsed = (.success s, evs) →
      (post_facebook_video_outcome resp elapsed check).1 = true) ∧
    (check 0 = .exn → (unified_verify_post check).1 = false) := by
  refine ⟨?_, ?_, ?_, ?_, ?_, ?_, ?_⟩
  · rcases h : igPublish resp elapsed with ⟨pr, evs⟩
    cases pr <;> simp [post_to_instagram_outcome, h]
  · rcases h : fbReelPublish resp elapsed video_id with ⟨pr, evs⟩
    cases pr <;> simp [post_facebook_reel_outcome, h]
  · rcases h : fbVideoPublish resp elapsed with ⟨pr, evs⟩
    cases pr <;> simp [post_facebook_video_outcome, h]
  · intro s evs h
    simp [post_to_instagram_outcome, h]
  · intro s evs h
    simp [post_facebook_reel_outcome, h]
  · intro s evs h
    simp [post_facebook_video_outcome, h]
  · intro hexn
    rw [unified_verify_post, show VERIFY_ATTEMPTS = 1 + 1 from rfl,
      unifiedVerifyAux, hexn]

/-- Claim C9: once the adapters have been attempted for the selected file,
process_file issues the storage delete exactly once, for every combination
of per-platform outcomes, missing tokens, and caught adapter exceptions. -/
theorem delete_exactly_once (e : ProcEnv) :
    ((process_file e).2.count Ev2.deleteCall) = 1 := by
  rcases e with ⟨pt, igc, ig, fb, th⟩
  unfold process_file processTryBlock threadsStep
  rcases pt <;> rcases igc <;> rcases ig with ⟨igr⟩ | _ <;>
    rcases fb with ⟨fbr⟩ | _ <;> rcases th with ⟨_ | ⟨s⟩⟩ | _ <;>
    simp <;> split_ifs <;> rfl

/-- Claim C10: an HTTP 200 Threads publish response whose body lacks an id
makes the publish loop return the string "Unknown"; process_file then
records Threads as failed and never calls the Threads verifier, although it
still deletes the file. -/
theorem threads_unknown_id_fails (resp : Nat → PubResp) (elapsed : Nat → ℚ)
    (attempt fuel : Nat) (e : ProcEnv) (hf : 0 < fuel)
    (ht : ¬ elapsed attempt > PUBLISH_MAX_WAIT_TIME)
    (h200 : (resp attempt).status = 200)
    (hid : (resp attempt).idf = .absent)
    (hth : e.threads = .val (.tid "Unknown")) :
    threadsPublishAux resp elapsed attempt fuel
      = (.success "Unknown", [.pubCall]) ∧
    (processTryBlock e).1.2.2 = false ∧
    Ev2.verifyThreadsCall ∉ (process_file e).2 := by
  obtain ⟨f, rfl⟩ : ∃ f, fuel = f + 1 := ⟨fuel - 1, by omega⟩
  refine ⟨?_, ?_, ?_⟩
  · rw [threadsPublishAux, if_neg ht]
    simp [h200, hid, IdField.getD]
  · rcases e with ⟨pt, igc, ig, fb, th⟩
    simp only at hth
    subst hth
    unfold processTryBlock threadsStep
    rcases pt <;> rcases igc <;> rcases ig with ⟨igr⟩ | _ <;>
      rcases fb with ⟨fbr⟩ | _ <;> simp [truthyStr]
  · rcases e with ⟨pt, igc, ig, fb, th⟩
    simp only at hth
    subst hth
    unfold process_file processTryBlock threadsStep
    rcases pt <;> rcases igc <;> rcases ig with ⟨igr⟩ | _ <;>
      rcases fb with ⟨fbr⟩ | _ <;> simp [truthyStr]

theorem threads_unknown_id_fails_witness :
    threadsPublishAux (fun _ => ⟨200, .absent⟩) (fun _ => 0) 0 5
      = (.success "Unknown", [.pubCall]) ∧
    (processTryBlock ⟨true, true, .val true, .val true,
      .val (.tid "Unknown")⟩).1.2.2 = false ∧
    Ev2.verifyThreadsCall ∉
      (process_file ⟨true, true, .val true, .val true,
        .val (.tid "Unknown")⟩).2 :=
  threads_unknown_id_fails (fun _ => ⟨200, .absent⟩) (fun _ => 0) 0 5
    ⟨true, true, .val true, .val true, .val (.tid "Unknown")⟩
    (by norm_num) (by norm_num [PUBLISH_MAX_WAIT_TIME]) rfl rfl rfl

end InstaThreads
